import Mathlib

/-!
Shallow embedding of the mud-server world core (src/world of the repository)
and proofs about it.

Conventions of the embedding:
* Rust `u64` / `usize` values are modelled as `Nat`; the embedded operations
  only compare them for equality or use them as list positions, so no
  overflow arithmetic occurs.
* Rust `panic!` / `todo!` / a panicking `unwrap` is modelled by returning
  `none` from an `Option`-valued function.
* Byte strings (`Vec<u8>`) are `List Nat`, text (`String`/`&str`) is the
  Lean `String` (a list of unicode scalar values), matching Rust's chars.
* The regexes of grammar.rs are embedded as explicit parsing functions with
  the regex crate's leftmost-first (backtracking-preference) semantics; each
  function carries the regex it implements in its doc comment.  The `\w`,
  `\s` and `\p{L}` character classes are modelled on their ASCII fragment,
  which is the fragment exercised by the vocabulary of the game.
-/

namespace MudServer

/-! ## errors.rs -/

/-- errors.rs: `enum Error`. -/
inductive Error where
  | InvalidCommand
  | InvalidDataMessage
  | PlayerDoesNotExist
  | NoSpawnpointFound
  | VerbUnknownError
  | VerbEncodingError
  | PropertyConversionFailed
  | UnknownError
deriving DecidableEq, Repr

/-- errors.rs: `impl PartialEq for Error::eq`.  The match lists one arm per
named variant pair and a catch-all `_ => false`; there is no arm for
`(UnknownError, UnknownError)`. -/
def Error.eqImpl : Error → Error → Bool
  | .InvalidCommand, .InvalidCommand => true
  | .InvalidDataMessage, .InvalidDataMessage => true
  | .PlayerDoesNotExist, .PlayerDoesNotExist => true
  | .NoSpawnpointFound, .NoSpawnpointFound => true
  | .VerbUnknownError, .VerbUnknownError => true
  | .VerbEncodingError, .VerbEncodingError => true
  | .PropertyConversionFailed, .PropertyConversionFailed => true
  | _, _ => false

/-! ## properties.rs -/

/-- properties.rs: `enum Color`. -/
inductive Color where
  | Red | Blue | Green | Yellow | Cyan | Magenta | Black | White | Violet | Purple
deriving DecidableEq, Repr

/-- properties.rs: `enum Rigidity`. -/
inductive Rigidity where
  | Rigid | Solid | Liquid | Aerially | Frozen | Molten
deriving DecidableEq, Repr

/-- properties.rs: `enum Temperature`. -/
inductive Temperature where
  | Cold | Cool | Warm | Hot
deriving DecidableEq, Repr

/-- properties.rs: `enum Lighting`. -/
inductive Lighting where
  | Pulsing | Radiating | Shining | Bright | Dark | Glowing
deriving DecidableEq, Repr

/-- properties.rs: `enum Property`. -/
inductive Property where
  | Color (c : Color)
  | Rigidity (r : Rigidity)
  | Temperature (t : Temperature)
  | Lighting (l : Lighting)
  | Custom (s : String)
deriving DecidableEq, Repr

/-- Rust `str::to_lowercase`, restricted to the ASCII case mapping
(`Char.toLower` lowers exactly the ASCII uppercase letters).  All the
vocabulary words compared against lowercased input in the source are ASCII,
so the special multi-char unicode lowercasings are never relevant to a
match. -/
def to_lowercase (s : String) : String :=
  String.mk (s.data.map Char.toLower)

/-- properties.rs: `impl TryFrom<&str> for Color`. -/
def Color.tryFrom (item : String) : Except Error Color :=
  match to_lowercase item with
  | "red" => .ok .Red
  | "blue" => .ok .Blue
  | "green" => .ok .Green
  | "yellow" => .ok .Yellow
  | "cyan" => .ok .Cyan
  | "magenta" => .ok .Magenta
  | "black" => .ok .Black
  | "white" => .ok .White
  | "violet" => .ok .Violet
  | "purple" => .ok .Purple
  | _ => .error .PropertyConversionFailed

/-- properties.rs: `impl TryFrom<&str> for Rigidity`. -/
def Rigidity.tryFrom (item : String) : Except Error Rigidity :=
  match to_lowercase item with
  | "rigid" => .ok .Rigid
  | "solid" => .ok .Solid
  | "liquid" => .ok .Liquid
  | "aerially" => .ok .Aerially
  | "frozen" => .ok .Frozen
  | "molten" => .ok .Molten
  | _ => .error .PropertyConversionFailed

/-- properties.rs: `impl TryFrom<&str> for Temperature`. -/
def Temperature.tryFrom (item : String) : Except Error Temperature :=
  match to_lowercase item with
  | "cold" => .ok .Cold
  | "cool" => .ok .Cool
  | "warm" => .ok .Warm
  | "hot" => .ok .Hot
  | _ => .error .PropertyConversionFailed

/-- properties.rs: `impl TryFrom<&str> for Lighting`. -/
def Lighting.tryFrom (item : String) : Except Error Lighting :=
  match to_lowercase item with
  | "pulsing" => .ok .Pulsing
  | "radiating" => .ok .Radiating
  | "shining" => .ok .Shining
  | "bright" => .ok .Bright
  | "dark" => .ok .Dark
  | "glowing" => .ok .Glowing
  | _ => .error .PropertyConversionFailed

/-- properties.rs: `impl From<&str> for Property`: try Color, then Rigidity,
then Temperature, then Lighting; fall back to `Custom(item)`. -/
def Property.fromStr (item : String) : Property :=
  match Color.tryFrom item with
  | .ok c => .Color c
  | .error _ =>
    match Rigidity.tryFrom item with
    | .ok r => .Rigidity r
    | .error _ =>
      match Temperature.tryFrom item with
      | .ok t => .Temperature t
      | .error _ =>
        match Lighting.tryFrom item with
        | .ok l => .Lighting l
        | .error _ => .Custom item

/-! ## actions.rs -/

/-- actions.rs: `enum Action`. -/
inductive Action where
  | Look (target : Option String) (preposition : Option String)
         (properties : Option (List Property))
  | Read
  | Enter
  | Connect
  | Access
  | Open
deriving DecidableEq, Repr

/-! ## grammar.rs

`impl TryFrom<&str> for Action` works with four regexes (`CMD_RE`,
`LOOK_RE`, `COMPLEX_LOOK_RE`, `PROP_RE`); each is embedded below as an
explicit matching function over `List Char`. -/

/-- The regex class `\w` (word character), ASCII fragment. -/
def isWordChar (c : Char) : Bool :=
  c.isAlpha || c.isDigit || c = '_'

/-- The regex class `\s` (whitespace): space, tab, newline, carriage return,
vertical tab, form feed. -/
def isSpaceChar (c : Char) : Bool :=
  c = ' ' || c = '\t' || c = '\n' || c = '\r' || c = '\x0b' || c = '\x0c'

/-- The regex class `\p{L}` (letter), ASCII fragment. -/
def isLetterChar (c : Char) : Bool :=
  c.isAlpha

/-- `CMD_RE = ^([\w\-]+)`, used via `find`: the anchor restricts the search
to position 0, so the find succeeds exactly when the input starts with a
word-or-hyphen character, and then returns the maximal such prefix.
Returns the matched token together with `item[mat.end()..]`. -/
def cmdFind (item : List Char) : Option (List Char × List Char) :=
  let tok := item.takeWhile (fun c => isWordChar c || c = '-')
  if tok.isEmpty then none
  else some (tok, item.drop tok.length)

/-- `LOOK_RE = ^\s*\.?\s*$` as a whole-input test: only whitespace and at
most one dot.  (The same pattern also ends `COMPLEX_LOOK_RE`.) -/
def simpleLookRest (s : List Char) : Bool :=
  let s1 := s.dropWhile isSpaceChar
  match s1 with
  | '.' :: s2 => (s2.dropWhile isSpaceChar).isEmpty
  | _ => s1.isEmpty

/-- The separator `(?:\s*,\s*|\s+)` inside `COMPLEX_LOOK_RE`, leftmost-first:
the comma alternative is preferred.  Both alternatives are followed (in every
use site) by an atom that requires a letter, so only the maximal space runs
can take part in a successful match; the function therefore consumes space
runs maximally.  Returns `(consumed, rest)`. -/
def sepMatch (s : List Char) : Option (List Char × List Char) :=
  let sp1 := s.takeWhile isSpaceChar
  let r1 := s.drop sp1.length
  match r1 with
  | ',' :: r2 =>
    let sp2 := r2.takeWhile isSpaceChar
    some (sp1 ++ ',' :: sp2, r2.drop sp2.length)
  | _ => if sp1.isEmpty then none else some (sp1, r1)

/-- Whether the position after a letter run is a `\b` word boundary: the
next character must not be a word character (end of input qualifies). -/
def boundaryAfter (s : List Char) : Bool :=
  match s with
  | [] => true
  | c :: _ => !isWordChar c

/-- The tail `(?:\b(?:\p{L}+)\b(?:\s*,\s*|\s+))*\b(\p{L}+)\s*\.?\s*$` of
`COMPLEX_LOOK_RE` with the greedy/backtracking preference of the regex
engine: first try to extend the starred group 2 by one more element and
recurse; if the remainder fails, end group 2 here and match the final
`\b(\p{L}+)\s*\.?\s*$`.  `prevIsWord` tells whether the character just
before `s` is a word character (for the leading `\b`).  Returns
`(group 2 text, group 3 text)`.  The fuel is an upper bound on the number
of group-2 iterations; each iteration consumes at least two characters, so
`s.length + 1` is always sufficient. -/
def tailMatch : Bool → List Char → Nat → Option (List Char × List Char)
  | _, _, 0 => none
  | prevIsWord, s, fuel + 1 =>
    let ls := s.takeWhile isLetterChar
    let r1 := s.drop ls.length
    if ls.isEmpty || prevIsWord then none
    else
      let viaIter : Option (List Char × List Char) :=
        if boundaryAfter r1 then
          match sepMatch r1 with
          | some (sep, r2) =>
            let prevW := match sep.getLast? with
              | some c => isWordChar c
              | none => false
            match tailMatch prevW r2 fuel with
            | some (g2, g3) => some (ls ++ sep ++ g2, g3)
            | none => none
          | none => none
        else none
      match viaIter with
      | some res => some res
      | none => if simpleLookRest r1 then some ([], ls) else none

/-- `COMPLEX_LOOK_RE = ^\s*\b(\p{L}+)\s+((?:\b(?:\p{L}+)\b(?:\s*,\s*|\s+))*)\b(\p{L}+)\s*\.?\s*$`
applied (via `captures`) to the rest of the line after the verb.  The
leading `\s*` and the `\p{L}+`/`\s+` runs are maximal: their character
classes are disjoint from the class of the atom that must follow, so no
shorter run can take part in a successful match.  The `\b` before group 1
always holds there (the previous character is a space or the start of the
slice).  Returns the three capture groups. -/
def complexLookCaptures (s : List Char) : Option (List Char × List Char × List Char) :=
  let sp0 := s.takeWhile isSpaceChar
  let r0 := s.drop sp0.length
  let g1 := r0.takeWhile isLetterChar
  let r1 := r0.drop g1.length
  if g1.isEmpty then none
  else
    let sp1 := r1.takeWhile isSpaceChar
    let r2 := r1.drop sp1.length
    if sp1.isEmpty then none
    else
      match tailMatch false r2 (r2.length + 1) with
      | some (g2, g3) => some (g1, g2, g3)
      | none => none

/-- The character class `[\s*\p{L}]` of `PROP_RE` (whitespace, a literal
star, or a letter). -/
def isPropClassChar (c : Char) : Bool :=
  isSpaceChar c || c = '*' || isLetterChar c

/-- The terminator `(?:\s*,\s*|\s+|$)` of `PROP_RE`, leftmost-first.
Returns the rest of the input after the terminator. -/
def propSep (s : List Char) : Option (List Char) :=
  let sp1 := s.takeWhile isSpaceChar
  let r1 := s.drop sp1.length
  match r1 with
  | ',' :: r2 => some (r2.drop (r2.takeWhile isSpaceChar).length)
  | _ =>
    if !sp1.isEmpty then some r1
    else if s.isEmpty then some []
    else none

/-- Lazy growth of the capture `([\s*\p{L}]+?)` of `PROP_RE`: after each
added character, first try the terminator; grow only if it fails.  Returns
`(capture, rest after the terminator)`. -/
def propGrow : List Char → List Char → Nat → Option (List Char × List Char)
  | _, _, 0 => none
  | captured, rest, fuel + 1 =>
    match propSep rest with
    | some r2 => some (captured, r2)
    | none =>
      match rest with
      | c :: r2 =>
        if isPropClassChar c then propGrow (captured ++ [c]) r2 fuel else none
      | [] => none

/-- One unanchored find of `PROP_RE = ([\s*\p{L}]+?)(?:\s*,\s*|\s+|$)`:
try each start position from the left; at a start the first character must
be in the capture class, then the capture grows lazily. -/
def propFindFrom : List Char → Nat → Option (List Char × List Char)
  | _, 0 => none
  | s, fuel + 1 =>
    match s with
    | [] => none
    | c :: rest =>
      if isPropClassChar c then
        match propGrow [c] rest (rest.length + 1) with
        | some res => some res
        | none => propFindFrom rest fuel
      else propFindFrom rest fuel

/-- `PROP_RE.captures_iter`: repeated non-overlapping finds from left to
right.  Every match consumes at least its one-character capture, except a
final match terminated by `$`, after which the input is empty. -/
def propCapturesIter : List Char → Nat → List (List Char)
  | _, 0 => []
  | s, fuel + 1 =>
    match propFindFrom s (s.length + 1) with
    | some (cap, rest) => cap :: propCapturesIter rest fuel
    | none => []

/-- grammar.rs, the `"look"` arm of `Action::try_from(&str)`.  `rest` is
`item[mat.end()..]`.
* `mat.end() == item.len()`: simple look.
* `LOOK_RE` matches the rest: simple look.
* otherwise `COMPLEX_LOOK_RE.captures`: on a match, group 2 is iterated
  with `PROP_RE` and each capture is pushed through `Property::from`
  (`caps.len()` is always 4 for this regex — the full match plus three
  always-participating groups — so the `caps.len() != 4` guard that would
  return `VerbEncodingError` never fires); on no match the code only logs
  "No complex command found.", falls out of the verb match and the synonym
  loop, and reaches `Err(Error::VerbUnknownError)`. -/
def lookArm (rest : List Char) : Except Error Action :=
  if rest.isEmpty then .ok (.Look none none none)
  else if simpleLookRest rest then .ok (.Look none none none)
  else
    match complexLookCaptures rest with
    | some (g1, g2, g3) =>
      let properties :=
        some ((propCapturesIter g2 (g2.length + 1)).map
          (fun cs => Property.fromStr (String.mk cs)))
      .ok (.Look (some (String.mk g3)) (some (String.mk g1)) properties)
    | none => .error .VerbUnknownError

/-- grammar.rs: `impl TryFrom<&str> for Action::try_from`.
`CMD_RE.find(item).unwrap()` panics when the input does not start with a
word-or-hyphen character (modelled by `none`).  `synonyms(command)` returns
`vec![command]`, so the for-loop runs exactly once with the command itself;
the verb is matched after `to_lowercase()`.  The source compares the
lowercased verb against the literals `"Access"` and `"Open"` (with capital
letters), so those two arms can never be taken.

A debug log in the `"look"` arm slices `item[mat.end()+1..]`, which in Rust
can panic when that position is not a character boundary; the embedding
works at the character level, where every position is a boundary, and the
claims below evaluate the function only on ASCII text past that point. -/
def Action.tryFromChars (item : List Char) : Option (Except Error Action) :=
  match cmdFind item with
  | none => none
  | some (command, rest) =>
    let lower := to_lowercase (String.mk command)
    some (
      if lower = "look" then lookArm rest
      else if lower = "read" then .ok .Read
      else if lower = "enter" then .ok .Enter
      else if lower = "connect" then .ok .Connect
      else if lower = "Access" then .ok .Access
      else if lower = "Open" then .ok .Open
      else .error .VerbUnknownError)

/-- `Action::try_from(&str)` on a Lean string. -/
def Action.tryFromStr (item : String) : Option (Except Error Action) :=
  Action.tryFromChars item.data

/-- UTF-8 decoding of a byte sequence, models `std::str::from_utf8`:
accepts exactly the well-formed UTF-8 encodings (continuation bytes in
`80..BF` with the usual tightened ranges after `E0`/`ED`/`F0`/`F4`,
excluding overlong forms and surrogates) and yields the decoded scalar
values. -/
def utf8Decode : List Nat → Option (List Char)
  | [] => some []
  | b0 :: rest =>
    if b0 < 0x80 then
      (utf8Decode rest).map (fun cs => Char.ofNat b0 :: cs)
    else if 0xC2 ≤ b0 ∧ b0 ≤ 0xDF then
      match rest with
      | b1 :: rest1 =>
        if 0x80 ≤ b1 ∧ b1 ≤ 0xBF then
          (utf8Decode rest1).map
            (fun cs => Char.ofNat ((b0 - 0xC0) * 0x40 + (b1 - 0x80)) :: cs)
        else none
      | [] => none
    else if 0xE0 ≤ b0 ∧ b0 ≤ 0xEF then
      match rest with
      | b1 :: b2 :: rest2 =>
        let lo1 := if b0 = 0xE0 then 0xA0 else 0x80
        let hi1 := if b0 = 0xED then 0x9F else 0xBF
        if lo1 ≤ b1 ∧ b1 ≤ hi1 ∧ 0x80 ≤ b2 ∧ b2 ≤ 0xBF then
          (utf8Decode rest2).map
            (fun cs =>
              Char.ofNat ((b0 - 0xE0) * 0x1000 + (b1 - 0x80) * 0x40 + (b2 - 0x80)) :: cs)
        else none
      | _ => none
    else if 0xF0 ≤ b0 ∧ b0 ≤ 0xF4 then
      match rest with
      | b1 :: b2 :: b3 :: rest3 =>
        let lo1 := if b0 = 0xF0 then 0x90 else 0x80
        let hi1 := if b0 = 0xF4 then 0x8F else 0xBF
        if lo1 ≤ b1 ∧ b1 ≤ hi1 ∧ 0x80 ≤ b2 ∧ b2 ≤ 0xBF ∧ 0x80 ≤ b3 ∧ b3 ≤ 0xBF then
          (utf8Decode rest3).map
            (fun cs =>
              Char.ofNat ((b0 - 0xF0) * 0x40000 + (b1 - 0x80) * 0x1000
                + (b2 - 0x80) * 0x40 + (b3 - 0x80)) :: cs)
        else none
      | _ => none
    else none

/-- grammar.rs: `impl TryFrom<Vec<u8>> for Action::try_from`: decode as
UTF-8 (failure yields `VerbEncodingError`), then parse the string. -/
def Action.tryFromBytes (item : List Nat) : Option (Except Error Action) :=
  match utf8Decode item with
  | none => some (.error .VerbEncodingError)
  | some cs => Action.tryFromChars cs

/-! ## assets.rs

`Node` owns `Vec<Box<dyn GameAsset>>` and `Port` holds `Option<Vec<Node>>`,
so the three types are mutually recursive.  The asset kinds implementing
the `GameAsset` trait in the source are exactly `Node` and `Port`; the
trait object is embedded as the closed sum `GameAsset` and each trait
method as a dispatching function. -/

mutual
/-- assets.rs: `struct Node { uid, name, properties, description, sub_assets }`. -/
inductive Node where
  | mk : Nat → String → Option (List Property) → String → List GameAsset → Node

/-- assets.rs: `struct Port { id, properties, is_open, connects_to, description }`. -/
inductive Port where
  | mk : Nat → Option (List Property) → Bool → Option (List Node) → String → Port

/-- A `Box<dyn GameAsset>`. -/
inductive GameAsset where
  | node : Node → GameAsset
  | port : Port → GameAsset
end

/-- Field `Node.uid`. -/
def Node.uid : Node → Nat
  | .mk u _ _ _ _ => u

/-- Field `Node.name`. -/
def Node.name : Node → String
  | .mk _ n _ _ _ => n

/-- Field `Node.properties`. -/
def Node.properties : Node → Option (List Property)
  | .mk _ _ p _ _ => p

/-- Field `Node.description`. -/
def Node.description : Node → String
  | .mk _ _ _ d _ => d

/-- Field `Node.sub_assets`. -/
def Node.sub_assets : Node → List GameAsset
  | .mk _ _ _ _ subs => subs

/-- Field `Port.id`. -/
def Port.id : Port → Nat
  | .mk i _ _ _ _ => i

/-- Field `Port.properties`. -/
def Port.properties : Port → Option (List Property)
  | .mk _ p _ _ _ => p

/-- Field `Port.is_open`. -/
def Port.is_open : Port → Bool
  | .mk _ _ o _ _ => o

/-- Field `Port.connects_to`. -/
def Port.connects_to : Port → Option (List Node)
  | .mk _ _ _ c _ => c

/-- Field `Port.description`. -/
def Port.description : Port → String
  | .mk _ _ _ _ d => d

/-- assets.rs: `Node::new`: empty name, no properties, empty description,
no sub-assets. -/
def Node.new (uid : Nat) : Node :=
  Node.mk uid "" none "" []

/-- assets.rs: `Node::update_description`. -/
def Node.update_description : Node → String → Node
  | .mk u n p _ subs, d => Node.mk u n p d subs

/-- assets.rs: `Port::new`. -/
def Port.new (id : Nat) : Port :=
  Port.mk id none false none ""

/-- assets.rs: `Port::update_description`. -/
def Port.update_description : Port → String → Port
  | .mk i p o c _, d => Port.mk i p o c d

/-- The trait method `GameAsset::uid` (dyn dispatch): `Node::uid` returns
`self.uid`, `Port::uid` returns `self.id`. -/
def GameAsset.uid : GameAsset → Nat
  | .node n => n.uid
  | .port p => p.id

/-- The trait method `GameAsset::name`: `Node::name` clones `self.name`,
`Port::name` returns `"port"`. -/
def GameAsset.name : GameAsset → String
  | .node n => n.name
  | .port _ => "port"

/-- The trait method `GameAsset::describe`: `Node::describe` clones
`self.description`; `Port::describe` appends an open/closed suffix. -/
def GameAsset.describe : GameAsset → String
  | .node n => n.description
  | .port p =>
    if p.is_open then p.description ++ " The port is open."
    else p.description ++ " The port is closed."

/-- assets.rs: `Node::add_asset`:
`if !self.sub_assets.iter().any(|a| a.uid() == asset.uid()) { self.sub_assets.push(asset); }`. -/
def Node.add_asset : Node → GameAsset → Node
  | .mk u n p d subs, asset =>
    if !(subs.any (fun a => a.uid == asset.uid)) then
      Node.mk u n p d (subs ++ [asset])
    else
      Node.mk u n p d subs

/-- assets.rs: `Node::remove_asset`:
`self.sub_assets.retain(|a| a.uid() == asset_uid)` — `retain` keeps exactly
the elements on which the closure is true. -/
def Node.remove_asset : Node → Nat → Node
  | .mk u n p d subs, asset_uid =>
    Node.mk u n p d (subs.filter (fun a => a.uid == asset_uid))

/-- assets.rs: `Node::react_to` (trait method `GameAsset::react_to` on
`Node`).  For `Look` without target the response starts from
`format!("{}\r\n", self.description)` and the for-loop appends
`format!("{}\r\n", asset.describe())` for every sub-asset in order. -/
def Node.react_to (self : Node) (a : Action) : String :=
  match a with
  | .Look none _ _ =>
    self.sub_assets.foldl
      (fun description asset => description ++ (asset.describe ++ "\r\n"))
      (self.description ++ "\r\n")
  | .Look (some _) _ _ => "Not implemented!\r\n"
  | .Read => "Read what?"
  | .Enter => "Enter what?"
  | .Connect => "Connect to what?"
  | .Access => "Access what?"
  | .Open => "Open what?"

/-- assets.rs: `Port::react_to`. -/
def Port.react_to (self : Port) (a : Action) : String :=
  match a with
  | .Look none _ _ =>
    if self.is_open then self.description ++ "\n The port is open."
    else self.description ++ "\n The port is closed."
  | .Look (some _) _ _ => "Not implemented!\r\n"
  | .Read => "Read what?"
  | .Enter => "Enter what?"
  | .Connect => "Connect to what?"
  | .Access => "Access what?"
  | .Open => "Open what?"

/-- The trait method `GameAsset::react_to`. -/
def GameAsset.react_to : GameAsset → Action → String
  | .node n, a => n.react_to a
  | .port p, a => p.react_to a

/-! ## world/mod.rs -/

/-- mod.rs: `struct Player`.  The retained `(thrussh::ChannelId,
thrussh::server::Handle)` session pair is modelled by a pair of numeric
identifiers; bytes pushed through a handle are recorded as `Sent` events
by the engine functions below. -/
structure Player where
  player_name : String
  active_session : Nat × Nat
  location : Option Nat
deriving Repr

/-- mod.rs: `Player::new`: no location yet. -/
def Player.new (player_name : String) (active_session : Nat × Nat) : Player :=
  { player_name := player_name, active_session := active_session, location := none }

/-- mod.rs: `impl Spawnable for Player::set_spawn_point_index`. -/
def Player.set_spawn_point_index (self : Player) (index : Nat) : Player :=
  { self with location := some index }

/-- mod.rs: `struct GameWorld`.  The `generational_arena::Arena<Node>` is
modelled as the list of its slots in insertion order: the operations the
source performs on it (`new`, `insert`, `get`) never free a slot, so every
issued `Index` has generation 0 and is identified with its slot number. -/
structure GameWorld where
  name : String
  description : Option String
  spawn_nodes : List Nat
  nodes : List Node
  players : List Player

/-- mod.rs: `GameWorld::new`. -/
def GameWorld.new (name : String) : GameWorld :=
  { name := name, description := none, spawn_nodes := [], nodes := [], players := [] }

/-- mod.rs: `GameWorld::add_node`: `Arena::insert` places the node in the
next free slot and returns its index. -/
def GameWorld.add_node (self : GameWorld) (node : Node) : GameWorld × Option Nat :=
  let idx := self.nodes.length
  ({ self with nodes := self.nodes ++ [node] }, some idx)

/-- mod.rs: `GameWorld::add_spwan_node` (name as in the source): insert
into the arena and additionally push the new index onto `spawn_nodes`. -/
def GameWorld.add_spwan_node (self : GameWorld) (node : Node) : GameWorld × Option Nat :=
  let idx := self.nodes.length
  ({ self with nodes := self.nodes ++ [node],
               spawn_nodes := self.spawn_nodes ++ [idx] }, some idx)

/-- mod.rs: `GameWorld::spawn<T: Spawnable>(&self, asset: &mut T)`:
`if self.spawn_nodes.is_empty() { Err(NoSpawnpointFound) } else {
asset.set_spawn_point_index(self.spawn_nodes[0]); Ok(self.spawn_nodes[0]) }`.
The generic `Spawnable` bound is embedded by passing the trait method
explicitly; the `&mut` effect on the asset is returned alongside the
result.  `spawn` borrows the world immutably and so cannot change it. -/
def GameWorld.spawn {T : Type} (self : GameWorld) (asset : T)
    (set_spawn_point_index : T → Nat → T) : T × Except Error Nat :=
  match self.spawn_nodes with
  | [] => (asset, .error .NoSpawnpointFound)
  | i :: _ => (set_spawn_point_index asset i, .ok i)

/-- The worlds obtainable through the public constructors of mod.rs:
`GameWorld::new` followed by any sequence of `add_node` and
`add_spwan_node`. -/
inductive GameWorld.Built : GameWorld → Prop where
  | new (name : String) : GameWorld.Built (GameWorld.new name)
  | add_node (w : GameWorld) (n : Node) :
      GameWorld.Built w → GameWorld.Built (w.add_node n).1
  | add_spwan_node (w : GameWorld) (n : Node) :
      GameWorld.Built w → GameWorld.Built (w.add_spwan_node n).1

/-! ## The engine loop (mod.rs: `run`, `process_command`, `process_data`)

connection_manager/mod.rs supplies the message types; the tokio mpsc
channels are modelled as a queue of buffered messages plus a closed flag
(`recv` on a closed channel still yields the buffered messages and returns
`None` only once the channel is both closed and drained). -/

/-- connection_manager/mod.rs: `enum Command`.  The `thrussh` channel id
and reply handle are numeric identifiers, as in `Player`. -/
inductive Command where
  | Register (client_id : Nat) (username : String) (channel_id : Nat) (handle : Nat)
  | Hangup (client_id : Nat)

/-- connection_manager/mod.rs: `struct DataMessage`. -/
structure DataMessage where
  client_id : Nat
  data : List Nat

/-- A record of one `handle.data(channel, bytes)` call made by the engine;
the text is the bytes pushed to the client.  Sends are modelled as always
succeeding (the `.expect` on a failed send is a transport-side condition
outside the embedded state). -/
structure Sent where
  handle : Nat
  channel : Nat
  text : String
deriving Repr

/-- mod.rs: the body of `ScreenType::Welcome.display_ansi()` reads a file;
the screen resource is an external interface, passed in as a
`Result<bytes, io::Error>` value. -/
abbrev Screen := Except Unit String

/-- `HashMap<ClientId, Player>::insert`: replace any entry with the same
key (association-list model, most recent first). -/
def playersInsert (players : List (Nat × Player)) (k : Nat) (v : Player) :
    List (Nat × Player) :=
  (k, v) :: players.filter (fun kv => kv.1 ≠ k)

/-- mod.rs: `process_command`.  `Register`: build the player, `world.spawn`
it; on success insert it into the player table and push the welcome screen
(on a screen load error only a log is written); on spawn failure the source
hits `todo!()` and panics (`none`).  `Hangup` is `todo!()` and panics. -/
def process_command (command : Command) (world : GameWorld)
    (players : List (Nat × Player)) (welcome_screen : Screen) :
    Option (List (Nat × Player) × List Sent) :=
  match command with
  | .Register client_id username channel_id handle =>
    let player := Player.new username (channel_id, handle)
    let spawned := world.spawn player Player.set_spawn_point_index
    match spawned.2 with
    | .ok _ =>
      let players2 := playersInsert players client_id spawned.1
      match welcome_screen with
      | .ok buf => some (players2, [⟨handle, channel_id, buf⟩])
      | .error _ => some (players2, [])
    | .error _ => none
  | .Hangup _ => none

/-- mod.rs: `process_data`.  The world and the player table are taken by
shared reference in the source and cannot be mutated; the embedding returns
them so that state invariance is expressible.  `none` models a panic
(`Action::try_from` can panic, see `Action.tryFromChars`).
* unknown client: only a log is written, no send;
* parse error: send "Error 23: Command not found.";
* parsed action, player has a location resolving in the arena: send
  `format!("{}\r\n", node.react_to(&a))`;
* location that does not resolve: send the glitch line;
* no location: send the limbo line. -/
def process_data (data_message : DataMessage) (world : GameWorld)
    (players : List (Nat × Player)) :
    Option (GameWorld × List (Nat × Player) × List Sent) :=
  match players.lookup data_message.client_id with
  | some player_info =>
    match Action.tryFromBytes data_message.data with
    | none => none
    | some (.ok a) =>
      match player_info.location with
      | some l =>
        match world.nodes.get? l with
        | some node =>
          some (world, players,
            [⟨player_info.active_session.2, player_info.active_session.1,
              node.react_to a ++ "\r\n"⟩])
        | none =>
          some (world, players,
            [⟨player_info.active_session.2, player_info.active_session.1,
              "A glitch in the matrix occured.\r\n"⟩])
      | none =>
        some (world, players,
          [⟨player_info.active_session.2, player_info.active_session.1,
            "In limbo everything is possible. And nothing. Makes you wonder...\r\n"⟩])
    | some (.error _) =>
      some (world, players,
        [⟨player_info.active_session.2, player_info.active_session.1,
          "Error 23: Command not found.\r\n"⟩])
  | none => some (world, players, [])

/-- A tokio mpsc receiver: buffered messages plus the closed flag. -/
structure Channel (α : Type) where
  queued : List α
  closed : Bool

/-- The state of `run`: the two receivers, the world, the player table
(local `players` of `run`), the log of all sends, and the externally
supplied welcome screen resource. -/
structure EngineState where
  command_rx : Channel Command
  data_rx : Channel DataMessage
  world : GameWorld
  players : List (Nat × Player)
  sent : List Sent
  welcome_screen : Screen

/-- The result of one iteration of the `loop` in `run`.  There is no
constructor for leaving the loop: no branch of the loop body contains a
`break` or `return` — the `else` branch of the `select!` only logs
"Both channels closed" and execution falls through to the next
iteration. -/
inductive StepResult where
  | continueLoop (s : EngineState)
  | pendingWait
  | panicked

/-- One iteration of the `loop` in `run`: `tokio::select!` over
`command_rx.recv()` and `data_rx.recv()`.  A branch is disabled once its
channel is closed and drained; with no message available and a channel
still open the task suspends (`pendingWait`); with both branches disabled
the `else` branch logs and the loop continues unchanged.  `select!` picks
pseudo-randomly among ready branches; the embedding resolves that choice
in favour of the command branch (no claim below depends on the choice). -/
def engineStep (s : EngineState) : StepResult :=
  match s.command_rx.queued with
  | command :: rest =>
    match process_command command s.world s.players s.welcome_screen with
    | some (players2, out) =>
      .continueLoop { s with command_rx := { s.command_rx with queued := rest },
                             players := players2, sent := s.sent ++ out }
    | none => .panicked
  | [] =>
    match s.data_rx.queued with
    | data_message :: rest =>
      match process_data data_message s.world s.players with
      | some (world2, players2, out) =>
        .continueLoop { s with data_rx := { s.data_rx with queued := rest },
                               world := world2, players := players2,
                               sent := s.sent ++ out }
      | none => .panicked
    | [] =>
      if s.command_rx.closed && s.data_rx.closed then
        .continueLoop s
      else
        .pendingWait

/-- Observable status of `run` after a bounded number of loop iterations. -/
inductive RunOutcome where
  | stillRunning (s : EngineState)
  | terminated
  | panicked

/-- Iterate `engineStep` at most `fuel` times.  `terminated` would be the
outcome of `run` returning; `engineStep` has no branch that produces it. -/
def engineRunFuel : Nat → EngineState → RunOutcome
  | 0, s => .stillRunning s
  | fuel + 1, s =>
    match engineStep s with
    | .continueLoop s2 => engineRunFuel fuel s2
    | .pendingWait => .stillRunning s
    | .panicked => .panicked

/-- The engine state after both queues are permanently closed and drained
(the situation claim C2 speaks about), over a minimal world. -/
def bothClosedState : EngineState :=
  { command_rx := { queued := [], closed := true },
    data_rx := { queued := [], closed := true },
    world := GameWorld.new "world",
    players := [], sent := [],
    welcome_screen := .error () }

/-- A node holding two ports with distinct uids 1 and 2 (for exercising
`Node::remove_asset`). -/
def demoNode : Node :=
  ((Node.new 0).add_asset (.port (Port.new 1))).add_asset (.port (Port.new 2))

/-- The nodes reachable from `Node::new` through the mutating methods of
assets.rs: `add_asset`, `remove_asset` and `update_description`. -/
inductive Node.Reachable : Node → Prop where
  | new (uid : Nat) : Node.Reachable (Node.new uid)
  | add_asset (n : Node) (a : GameAsset) :
      Node.Reachable n → Node.Reachable (n.add_asset a)
  | remove_asset (n : Node) (u : Nat) :
      Node.Reachable n → Node.Reachable (n.remove_asset u)
  | update_description (n : Node) (d : String) :
      Node.Reachable n → Node.Reachable (n.update_description d)

/-- A registered player with no location (used as a concrete witness). -/
def limboPlayer : Player :=
  Player.new "trinity" (3, 4)

/-! ## Theorems -/

/-- Helper: the accumulating for-loop of `Node::react_to` produces the
accumulator followed by the joined per-asset lines. -/
theorem foldl_append_eq_join (f : GameAsset → String) :
    ∀ (l : List GameAsset) (acc : String),
      l.foldl (fun d x => d ++ f x) acc = acc ++ String.join (l.map f)
  | [], acc => by
    apply String.ext
    simp
  | x :: xs, acc => by
    simp only [List.foldl_cons, List.map_cons]
    rw [foldl_append_eq_join f xs (acc ++ f x)]
    apply String.ext
    simp

/-- Helper: in a world built through `GameWorld::new`, `add_node` and
`add_spwan_node`, every spawn-candidate index refers to a live slot of the
node arena. -/
theorem built_spawn_candidates_live {w : GameWorld} (hw : w.Built) :
    ∀ i ∈ w.spawn_nodes, i < w.nodes.length := by
  induction hw with
  | new name => simp [GameWorld.new]
  | add_node w n _ ih =>
    intro i hi
    simp only [GameWorld.add_node, List.length_append] at hi ⊢
    exact Nat.lt_succ_of_lt (ih i hi)
  | add_spwan_node w n _ ih =>
    intro i hi
    simp only [GameWorld.add_spwan_node, List.length_append, List.mem_append,
      List.mem_singleton] at hi ⊢
    rcases hi with hi | rfl
    · exact Nat.lt_succ_of_lt (ih i hi)
    · simp

/-- C1: evaluation of `Action::try_from` at the failing verbs.  Contrary to
the claim, no casing variant of "access" or "open" parses: the source
compares the lowercased verb with the capitalized literals `"Access"` and
`"Open"`, so both arms are unreachable and every variant of those two verbs
yields `VerbUnknownError`.  (Casing variants of the other four verbs do
parse, as the last four conjuncts show.) -/
theorem access_and_open_verbs_never_parse :
    Action.tryFromStr "access" = some (.error .VerbUnknownError) ∧
    Action.tryFromStr "Access" = some (.error .VerbUnknownError) ∧
    Action.tryFromStr "ACCESS" = some (.error .VerbUnknownError) ∧
    Action.tryFromStr "open" = some (.error .VerbUnknownError) ∧
    Action.tryFromStr "Open" = some (.error .VerbUnknownError) ∧
    Action.tryFromStr "OPEN" = some (.error .VerbUnknownError) ∧
    Action.tryFromStr "LOOK" = some (.ok (.Look none none none)) ∧
    Action.tryFromStr "Read" = some (.ok .Read) ∧
    Action.tryFromStr "enter" = some (.ok .Enter) ∧
    Action.tryFromStr "CONNECT" = some (.ok .Connect) :=
  ⟨rfl, rfl, rfl, rfl, rfl, rfl, rfl, rfl, rfl, rfl⟩

/-- C2: evaluation of the engine loop once both queues are closed and
drained.  Contrary to the claim, `run` does not terminate: the `select!`
else branch only logs "Both channels closed" and the loop iterates forever
— after any number of iterations the loop is still running and the
terminated outcome is never reached. -/
theorem run_loop_never_terminates_after_both_queues_closed :
    ∀ fuel : Nat,
      engineRunFuel fuel bothClosedState = .stillRunning bothClosedState ∧
      engineRunFuel fuel bothClosedState ≠ .terminated := by
  intro fuel
  induction fuel with
  | zero => exact ⟨rfl, fun h => RunOutcome.noConfusion h⟩
  | succ n ih =>
    have hstep : engineRunFuel (n + 1) bothClosedState
        = engineRunFuel n bothClosedState := rfl
    rw [hstep]
    exact ih

/-- C3: evaluation of `Node::remove_asset` at a node with sub-asset uids
`[1, 2]`.  Contrary to the claim, removing uid 2 retains exactly the asset
with uid 2 and drops the asset with uid 1: `retain(|a| a.uid() == asset_uid)`
keeps the matching assets instead of the non-matching ones. -/
theorem remove_asset_retains_matching_ids :
    demoNode.sub_assets.map GameAsset.uid = [1, 2] ∧
    (demoNode.remove_asset 2).sub_assets.map GameAsset.uid = [2] ∧
    (demoNode.remove_asset 2).sub_assets.map GameAsset.uid ≠ [1] := by
  refine ⟨rfl, rfl, ?_⟩
  decide

/-- C4: evaluation of `Action::try_from` on inputs without a leading
word-token.  Contrary to the claim, the parse does not return
`VerbUnknownError`: `CMD_RE.find(item).unwrap()` panics (modelled by
`none`) on the empty string and on input starting with whitespace or
punctuation. -/
theorem parse_panics_without_leading_word_token :
    Action.tryFromStr "" = none ∧
    Action.tryFromStr " look" = none ∧
    Action.tryFromStr ". look" = none :=
  ⟨rfl, rfl, rfl⟩

/-- C5: `GameWorld::spawn` fails with `NoSpawnpointFound` exactly when the
spawn-candidate list is empty (the world itself is borrowed immutably by
`spawn` and is returned untouched by construction); otherwise it takes the
first candidate, applies the asset's `set_spawn_point_index` to it, returns
it, and — in any world built via `GameWorld::new`, `add_node` and
`add_spwan_node` — that index resolves to a live node in the arena. -/
theorem spawn_first_candidate (w : GameWorld) (hw : w.Built) (p : Player) :
    ((w.spawn p Player.set_spawn_point_index).2 = .error .NoSpawnpointFound
        ↔ w.spawn_nodes = []) ∧
    (∀ i rest, w.spawn_nodes = i :: rest →
      w.spawn p Player.set_spawn_point_index = (p.set_spawn_point_index i, .ok i)
        ∧ w.nodes.get? i ≠ none) := by
  constructor
  · cases hsn : w.spawn_nodes with
    | nil => simp [GameWorld.spawn, hsn]
    | cons i rest => simp [GameWorld.spawn, hsn]
  · intro i rest hsn
    refine ⟨by simp [GameWorld.spawn, hsn], ?_⟩
    have hlt : i < w.nodes.length :=
      built_spawn_candidates_live hw i (by rw [hsn]; exact List.mem_cons_self i rest)
    simp [List.get?_eq_none]
    omega

/-- Witness for C5 at a concrete built world with one spawn node and at a
world with none. -/
theorem spawn_first_candidate_witness :
    GameWorld.Built ((GameWorld.new "world").add_spwan_node (Node.new 0)).1 ∧
    ((((GameWorld.new "world").add_spwan_node (Node.new 0)).1.spawn limboPlayer
          Player.set_spawn_point_index).2
        = .error .NoSpawnpointFound
      ↔ ((GameWorld.new "world").add_spwan_node (Node.new 0)).1.spawn_nodes = []) ∧
    (∀ i rest,
      ((GameWorld.new "world").add_spwan_node (Node.new 0)).1.spawn_nodes = i :: rest →
      ((GameWorld.new "world").add_spwan_node (Node.new 0)).1.spawn limboPlayer
          Player.set_spawn_point_index
        = (limboPlayer.set_spawn_point_index i, .ok i)
        ∧ ((GameWorld.new "world").add_spwan_node (Node.new 0)).1.nodes.get? i ≠ none) :=
  ⟨GameWorld.Built.add_spwan_node _ _ (GameWorld.Built.new "world"),
   spawn_first_candidate _
     (GameWorld.Built.add_spwan_node _ _ (GameWorld.Built.new "world")) limboPlayer⟩

/-- C6: when the engine processes a `DataMessage` of a registered player
whose bytes fail to parse as an `Action` (unknown verb or malformed
encoding), it sends that player exactly the line
"Error 23: Command not found." and returns the world and player table
unchanged — in particular every player's location is unchanged. -/
theorem process_data_parse_failure_sends_error_line
    (data_message : DataMessage) (world : GameWorld)
    (players : List (Nat × Player)) (p : Player) (e : Error)
    (hp : players.lookup data_message.client_id = some p)
    (he : Action.tryFromBytes data_message.data = some (.error e)) :
    process_data data_message world players
      = some (world, players,
          [⟨p.active_session.2, p.active_session.1,
            "Error 23: Command not found.\r\n"⟩]) := by
  unfold process_data
  rw [hp, he]

/-- Witness for C6: a registered player receives the error line for the
non-UTF-8 message `[0xFF]` and the state is returned unchanged. -/
theorem process_data_parse_failure_witness :
    ([(7, limboPlayer)].lookup 7 = some limboPlayer) ∧
    (Action.tryFromBytes [0xFF] = some (.error .VerbEncodingError)) ∧
    process_data ⟨7, [0xFF]⟩ (GameWorld.new "w") [(7, limboPlayer)]
      = some (GameWorld.new "w", [(7, limboPlayer)],
          [⟨limboPlayer.active_session.2, limboPlayer.active_session.1,
            "Error 23: Command not found.\r\n"⟩]) :=
  ⟨rfl, rfl,
   process_data_parse_failure_sends_error_line ⟨7, [0xFF]⟩ (GameWorld.new "w")
     [(7, limboPlayer)] limboPlayer .VerbEncodingError rfl rfl⟩

/-- C7: `Action::parse("look at red, shiny port")` succeeds with
preposition "at" (the first captured word), target "port" (the last
captured word), and the interior words classified through the Property
Model as `[Color(Red), Custom("shiny")]`, in that order. -/
theorem parse_complex_look_example :
    Action.tryFromStr "look at red, shiny port"
      = some (.ok (.Look (some "port") (some "at")
          (some [.Color .Red, .Custom "shiny"]))) :=
  rfl

/-- C8: for every node, `Node::react_to` on `Look` without a target returns
the node's own description followed by each sub-asset's `describe()`
output, one "\r\n"-terminated line each, in sub-asset insertion order. -/
theorem react_to_look_none_lists_sub_assets (self : Node)
    (preposition : Option String) (properties : Option (List Property)) :
    self.react_to (.Look none preposition properties)
      = self.description ++ "\r\n"
        ++ String.join (self.sub_assets.map (fun a => a.describe ++ "\r\n")) := by
  cases self with
  | mk u n pr d subs =>
    show subs.foldl (fun description asset => description ++ (asset.describe ++ "\r\n"))
        ((Node.mk u n pr d subs).description ++ "\r\n") = _
    rw [foldl_append_eq_join]
    apply String.ext
    simp [Node.sub_assets, Node.description]

/-- C9: every node reachable from `Node::new` through `add_asset`,
`remove_asset` and `update_description` has pairwise distinct sub-asset
uids, and `add_asset` with an already-present uid is a no-op on the whole
node. -/
theorem node_sub_asset_uids_nodup (n : Node) (h : n.Reachable) :
    (n.sub_assets.map GameAsset.uid).Nodup ∧
    ∀ a : GameAsset, n.sub_assets.any (fun b => b.uid == a.uid) = true →
      n.add_asset a = n := by
  constructor
  · induction h with
    | new uid => simp [Node.new, Node.sub_assets]
    | add_asset m a _ ih =>
      cases m with
      | mk u nm pr d subs =>
        simp only [Node.sub_assets] at ih
        cases hany : subs.any (fun b => b.uid == a.uid) with
        | true => simpa [Node.add_asset, hany, Node.sub_assets] using ih
        | false =>
          simp only [Node.add_asset, hany, Bool.not_false, if_true, Node.sub_assets,
            List.map_append, List.map_cons, List.map_nil]
          rw [List.nodup_append]
          refine ⟨ih, List.nodup_singleton _, ?_⟩
          intro x hx hx1
          simp only [List.mem_singleton] at hx1
          rcases List.mem_map.mp hx with ⟨b, hb, rfl⟩
          have hfalse : (b.uid == a.uid) = false := by
            have hall := List.any_eq_false.mp hany
            simpa using hall b hb
          exact absurd hx1 (by simpa using hfalse)
    | remove_asset m u _ ih =>
      cases m with
      | mk u0 nm pr d subs =>
        simp only [Node.sub_assets] at ih
        simp only [Node.remove_asset, Node.sub_assets]
        exact ((List.filter_sublist subs).map GameAsset.uid).nodup ih
    | update_description m d _ ih =>
      cases m with
      | mk u0 nm pr d0 subs =>
        simpa [Node.update_description, Node.sub_assets] using ih
  · intro a ha
    cases n with
    | mk u nm pr d subs =>
      simp only [Node.sub_assets] at ha
      simp [Node.add_asset, ha]

/-- Witness for C9: a reachable node built by inserting uid 1 twice retains
a single asset with uid 1 and duplicate-free uids. -/
theorem node_sub_asset_uids_nodup_witness :
    Node.Reachable (((Node.new 0).add_asset (.port (Port.new 1))).add_asset
      (.port (Port.new 1))) ∧
    (((((Node.new 0).add_asset (.port (Port.new 1))).add_asset
        (.port (Port.new 1))).sub_assets.map GameAsset.uid).Nodup ∧
     ∀ a : GameAsset,
       (((Node.new 0).add_asset (.port (Port.new 1))).add_asset
         (.port (Port.new 1))).sub_assets.any (fun b => b.uid == a.uid) = true →
       (((Node.new 0).add_asset (.port (Port.new 1))).add_asset
         (.port (Port.new 1))).add_asset a
         = ((Node.new 0).add_asset (.port (Port.new 1))).add_asset
             (.port (Port.new 1))) :=
  ⟨Node.Reachable.add_asset _ _ (Node.Reachable.add_asset _ _ (Node.Reachable.new 0)),
   node_sub_asset_uids_nodup _
     (Node.Reachable.add_asset _ _ (Node.Reachable.add_asset _ _ (Node.Reachable.new 0)))⟩

/-- C10: the source `PartialEq` on the world `Error` type is reflexive on
each of the seven named variants but `UnknownError == UnknownError`
evaluates to `false` (the match has no arm for that pair). -/
theorem error_eq_reflexive_except_unknown :
    Error.eqImpl .InvalidCommand .InvalidCommand = true ∧
    Error.eqImpl .InvalidDataMessage .InvalidDataMessage = true ∧
    Error.eqImpl .PlayerDoesNotExist .PlayerDoesNotExist = true ∧
    Error.eqImpl .NoSpawnpointFound .NoSpawnpointFound = true ∧
    Error.eqImpl .VerbUnknownError .VerbUnknownError = true ∧
    Error.eqImpl .VerbEncodingError .VerbEncodingError = true ∧
    Error.eqImpl .PropertyConversionFailed .PropertyConversionFailed = true ∧
    Error.eqImpl .UnknownError .UnknownError = false := by
  decide

end MudServer
